import Mathlib

/-!
Shallow embedding of `mattergen/common/utils/readout.py` (graph readout layers:
`MLP`, `MultiHeadWeightedGraphReadout`, `UnweightedGraphReadout`,
`CombinedGraphReadout`), together with the torch / torch_scatter primitives they
call (`torch.sigmoid`, `torch_scatter.scatter_softmax`, `torch_scatter.scatter`,
`Tensor.index_add_`, `torch.cat`, `nn.Linear`, `nn.ReLU`).

Tensors are embedded as `Fin`-indexed functions into `ℝ`; a float matrix of
shape `[V, D]` becomes `Fin V → Fin D → ℝ`.  `node_to_graph_id` entries are
required to lie in `[0, num_graphs)`, which the embedding enforces by typing
them as `Fin num_graphs`.  Python exceptions become an `Except PyErr` result.
-/

/-- Python exceptions raised by the readout module: `ValueError` (explicit
`raise` statements) and `AttributeError` (raised by `nn.Module.__getattr__`
when a nonexistent attribute is read). -/
inductive PyErr where
  | valueError (msg : String) : PyErr
  | attributeError (msg : String) : PyErr
deriving DecidableEq

/-- `torch.nn.Linear(inF, outF)` with its default bias: parameters of an affine
map from `ℝ^inF` to `ℝ^outF`. -/
structure LinearLayer (inF outF : ℕ) where
  weight : Fin outF → Fin inF → ℝ
  bias : Fin outF → ℝ

/-- Application of an `nn.Linear` layer: `y = W x + b`. -/
noncomputable def LinearLayer.apply {inF outF : ℕ} (L : LinearLayer inF outF)
    (x : Fin inF → ℝ) : Fin outF → ℝ :=
  fun o => (∑ i, L.weight o i * x i) + L.bias o

/-- `nn.ReLU()`, the default activation of `MLP`. -/
noncomputable def relu (x : ℝ) : ℝ := max 0 x

/-- Parameters of `MLP(input_dim, out_dim, hidden_layer_dims)`: one `nn.Linear`
per hidden dimension, each followed by the activation, then a final `nn.Linear`
with no trailing activation (`readout.py`, lines 12-28). -/
inductive MLPParams : ℕ → List ℕ → ℕ → Type where
  | last : {i o : ℕ} → LinearLayer i o → MLPParams i [] o
  | hidden : {i h o : ℕ} → {t : List ℕ} →
      LinearLayer i h → MLPParams h t o → MLPParams i (h :: t) o

/-- `MLP.forward`: run the `nn.Sequential` stack (hidden linear layers each
followed by `nn.ReLU()`, then the output linear layer). -/
noncomputable def MLPParams.forward :
    {i : ℕ} → {dims : List ℕ} → {o : ℕ} →
    MLPParams i dims o → (Fin i → ℝ) → Fin o → ℝ
  | _, _, _, .last L, x => L.apply x
  | _, _, _, .hidden L rest, x => rest.forward (fun j => relu (L.apply x j))

/-- `torch.sigmoid`, the logistic function. -/
noncomputable def sigmoid (x : ℝ) : ℝ := 1 / (1 + Real.exp (-x))

/-- The set of nodes assigned to graph `g` by `node_to_graph_id`. -/
def graphNodes {V G : ℕ} (ids : Fin V → Fin G) (g : Fin G) : Finset (Fin V) :=
  Finset.univ.filter (fun i => ids i = g)

theorem mem_graphNodes {V G : ℕ} (ids : Fin V → Fin G) (g : Fin G) (i : Fin V) :
    i ∈ graphNodes ids g ↔ ids i = g := by
  simp [graphNodes]

theorem self_mem_graphNodes {V G : ℕ} (ids : Fin V → Fin G) (i : Fin V) :
    i ∈ graphNodes ids (ids i) := by
  simp [graphNodes]

/-- The per-group maximum used by `torch_scatter.scatter_softmax` for numerical
stability (`scatter_max` gathered back to each source element).  The group of
node `i` always contains `i`, so the maximum is over a nonempty set. -/
noncomputable def groupMax {V G H : ℕ} (src : Fin V → Fin H → ℝ)
    (ids : Fin V → Fin G) (i : Fin V) (h : Fin H) : ℝ :=
  (graphNodes ids (ids i)).sup' ⟨i, self_mem_graphNodes ids i⟩ (fun j => src j h)

/-- `torch_scatter.scatter_softmax(src, index, dim=0)` on a `[V, H]` tensor with
a `[V]` index: per group and per column, subtract the group maximum,
exponentiate, and divide by the per-group sum of the exponentials. -/
noncomputable def scatter_softmax {V G H : ℕ} (src : Fin V → Fin H → ℝ)
    (ids : Fin V → Fin G) : Fin V → Fin H → ℝ :=
  fun i h =>
    Real.exp (src i h - groupMax src ids i h) /
      ∑ j ∈ graphNodes ids (ids i), Real.exp (src j h - groupMax src ids j h)

/-- `torch_scatter.scatter(src, index, dim=0, dim_size, reduce)` on a `[V, D]`
source: segmented reduction by `reduce`.  For `sum` an empty segment is `0`;
for `mean` the divisor count is clamped below by 1, so an empty segment is `0`;
for `max`/`min` a segment that receives no element keeps the library's zero
fill value. -/
noncomputable def scatter_reduce {V G D : ℕ} (reduceOp : String)
    (src : Fin V → Fin D → ℝ) (ids : Fin V → Fin G) : Fin G → Fin D → ℝ :=
  fun g d =>
    if reduceOp = "sum" then ∑ i ∈ graphNodes ids g, src i d
    else if reduceOp = "mean" then
      (∑ i ∈ graphNodes ids g, src i d) / ((max 1 (graphNodes ids g).card : ℕ) : ℝ)
    else if reduceOp = "max" then
      if h : (graphNodes ids g).Nonempty then
        (graphNodes ids g).sup' h (fun i => src i d)
      else 0
    else if reduceOp = "min" then
      if h : (graphNodes ids g).Nonempty then
        (graphNodes ids g).inf' h (fun i => src i d)
      else 0
    else 0

/-- Index of `(h, d)` in the row-major flattening of `[H, D]` into `[H * D]`,
as used by `Tensor.view(-1, num_heads, head_dim)` and its inverse. -/
def flatIdx {H D : ℕ} (h : Fin H) (d : Fin D) : Fin (H * D) :=
  ⟨h.val * D + d.val, by
    have hh := h.isLt
    have hd := d.isLt
    calc h.val * D + d.val < h.val * D + D := by omega
      _ = (h.val + 1) * D := by ring
      _ ≤ H * D := Nat.mul_le_mul_right D hh⟩

/-- The head that position `k` of a row-major `[H * D]` vector belongs to. -/
def headOf {H D : ℕ} (k : Fin (H * D)) : Fin H :=
  ⟨k.val / D, by
    have hk := k.isLt
    have hD : 0 < D := by
      rcases Nat.eq_zero_or_pos D with h0 | h0
      · subst h0; omega
      · exact h0
    exact (Nat.div_lt_iff_lt_mul hD).mpr hk⟩

/-- The within-head position that `k` of a row-major `[H * D]` vector holds. -/
def dimOf {H D : ℕ} (k : Fin (H * D)) : Fin D :=
  ⟨k.val % D, by
    have hk := k.isLt
    have hD : 0 < D := by
      rcases Nat.eq_zero_or_pos D with h0 | h0
      · subst h0; omega
      · exact h0
    exact Nat.mod_lt _ hD⟩

/-- `Tensor.view(-1, H, D)` of a `[V, H * D]` tensor. -/
noncomputable def view3 {V H D : ℕ} (vals : Fin V → Fin (H * D) → ℝ) :
    Fin V → Fin H → Fin D → ℝ :=
  fun i h d => vals i (flatIdx h d)

/-- `Tensor.view(-1, H * D)` of a `[V, H, D]` tensor (row-major flattening). -/
noncomputable def flatten3 {V H D : ℕ} (t : Fin V → Fin H → Fin D → ℝ) :
    Fin V → Fin (H * D) → ℝ :=
  fun i k => t i (headOf k) (dimOf k)

/-- One-by-one accumulation underlying `Tensor.index_add_(0, index, src)`:
process the listed rows in order, adding each into the output row named by its
index. -/
noncomputable def indexAddList {V G K : ℕ} (ids : Fin V → Fin G)
    (rows : Fin V → Fin K → ℝ) :
    List (Fin V) → (Fin G → Fin K → ℝ) → Fin G → Fin K → ℝ
  | [], acc => acc
  | i :: rest, acc =>
      indexAddList ids rows rest
        (fun g k => if ids i = g then acc g k + rows i k else acc g k)

/-- `torch.zeros((G, K)).index_add_(0, ids, rows)`: starting from the zero
matrix, add row `i` of `rows` into output row `ids i`, for every `i`. -/
noncomputable def index_add {V G K : ℕ} (ids : Fin V → Fin G)
    (rows : Fin V → Fin K → ℝ) : Fin G → Fin K → ℝ :=
  indexAddList ids rows (List.finRange V) (fun _ _ => 0)

/-- Parameters of `MultiHeadWeightedGraphReadout` (`readout.py`, lines
128-172): the stored (already validated) `weighting_type`, the scoring MLP
(`node_dim → num_heads` with `num_mlp_layers` hidden layers of width
`head_dim * num_heads`), the transformation MLP
(`node_dim → num_heads * head_dim`, same hidden widths), and the bias-free
combination layer (`nn.Linear(num_heads * head_dim, out_dim, bias=False)`). -/
structure MultiHeadWeightedGraphReadout
    (node_dim out_dim num_heads head_dim num_mlp_layers : ℕ) where
  weighting_type : String
  scoring_module :
    MLPParams node_dim (List.replicate num_mlp_layers (head_dim * num_heads)) num_heads
  transformation_mlp :
    MLPParams node_dim (List.replicate num_mlp_layers (head_dim * num_heads))
      (num_heads * head_dim)
  combination_layer : Fin out_dim → Fin (num_heads * head_dim) → ℝ

/-- `MultiHeadWeightedGraphReadout.__init__`: raise
`ValueError(f"Unknown weighting type {weighting_type}!")` when
`weighting_type` is not `"weighted_sum"` or `"weighted_mean"`; otherwise store
it and build the submodules (whose construction cannot fail; their freshly
initialized parameters are taken here as arguments). -/
def MultiHeadWeightedGraphReadout.init
    (node_dim out_dim num_heads head_dim num_mlp_layers : ℕ)
    (weighting_type : String)
    (scoring_module :
      MLPParams node_dim (List.replicate num_mlp_layers (head_dim * num_heads)) num_heads)
    (transformation_mlp :
      MLPParams node_dim (List.replicate num_mlp_layers (head_dim * num_heads))
        (num_heads * head_dim))
    (combination_layer : Fin out_dim → Fin (num_heads * head_dim) → ℝ) :
    Except PyErr
      (MultiHeadWeightedGraphReadout node_dim out_dim num_heads head_dim num_mlp_layers) :=
  if weighting_type = "weighted_sum" ∨ weighting_type = "weighted_mean" then
    Except.ok ⟨weighting_type, scoring_module, transformation_mlp, combination_layer⟩
  else
    Except.error (PyErr.valueError ("Unknown weighting type " ++ weighting_type ++ "!"))

/-- Step 1 of `MultiHeadWeightedGraphReadout.forward`: `scores =
self._scoring_module(node_embeddings)`, a `[V, num_heads]` tensor. -/
noncomputable def MultiHeadWeightedGraphReadout.scores
    {node_dim out_dim num_heads head_dim num_mlp_layers : ℕ}
    (r : MultiHeadWeightedGraphReadout node_dim out_dim num_heads head_dim num_mlp_layers)
    {V : ℕ} (node_embeddings : Fin V → Fin node_dim → ℝ) :
    Fin V → Fin num_heads → ℝ :=
  fun i => r.scoring_module.forward (node_embeddings i)

/-- The weight normalisation of `MultiHeadWeightedGraphReadout.forward` (lines
183-188): sigmoid for `"weighted_sum"`, grouped softmax for `"weighted_mean"`,
and `ValueError` on the defensive fallthrough branch. -/
noncomputable def MultiHeadWeightedGraphReadout.weights
    {node_dim out_dim num_heads head_dim num_mlp_layers : ℕ}
    (r : MultiHeadWeightedGraphReadout node_dim out_dim num_heads head_dim num_mlp_layers)
    {V G : ℕ} (node_embeddings : Fin V → Fin node_dim → ℝ)
    (node_to_graph_id : Fin V → Fin G) :
    Except PyErr (Fin V → Fin num_heads → ℝ) :=
  if r.weighting_type = "weighted_sum" then
    Except.ok (fun i h => sigmoid (r.scores node_embeddings i h))
  else if r.weighting_type = "weighted_mean" then
    Except.ok (scatter_softmax (r.scores node_embeddings) node_to_graph_id)
  else
    Except.error
      (PyErr.valueError ("Unknown weighting type " ++ r.weighting_type ++ "!"))

/-- Step 2 of `MultiHeadWeightedGraphReadout.forward`: `values =
self._transformation_mlp(node_embeddings)`, a `[V, num_heads * head_dim]`
tensor (before the `view` reshape). -/
noncomputable def MultiHeadWeightedGraphReadout.values
    {node_dim out_dim num_heads head_dim num_mlp_layers : ℕ}
    (r : MultiHeadWeightedGraphReadout node_dim out_dim num_heads head_dim num_mlp_layers)
    {V : ℕ} (node_embeddings : Fin V → Fin node_dim → ℝ) :
    Fin V → Fin (num_heads * head_dim) → ℝ :=
  fun i => r.transformation_mlp.forward (node_embeddings i)

/-- `MultiHeadWeightedGraphReadout.forward` (lines 174-207): score, normalise
to weights, transform, reshape, multiply with the weights broadcast over
`head_dim`, scatter-add per graph with `index_add_`, then apply the bias-free
combination layer. -/
noncomputable def MultiHeadWeightedGraphReadout.forward
    {node_dim out_dim num_heads head_dim num_mlp_layers : ℕ}
    (r : MultiHeadWeightedGraphReadout node_dim out_dim num_heads head_dim num_mlp_layers)
    {V G : ℕ} (node_embeddings : Fin V → Fin node_dim → ℝ)
    (node_to_graph_id : Fin V → Fin G) :
    Except PyErr (Fin G → Fin out_dim → ℝ) := do
  let w ← r.weights node_embeddings node_to_graph_id
  let weighted_values : Fin V → Fin num_heads → Fin head_dim → ℝ :=
    fun i h d => w i h * view3 (r.values node_embeddings) i h d
  let per_graph_values : Fin G → Fin (num_heads * head_dim) → ℝ :=
    index_add node_to_graph_id (flatten3 weighted_values)
  return fun g o => ∑ k, r.combination_layer o k * per_graph_values g k

/-- Parameters of `UnweightedGraphReadout` (`readout.py`, lines 210-229): the
stored pooling kind and the bias-free combination layer
(`nn.Linear(node_dim, out_dim, bias=False)`). -/
structure UnweightedGraphReadout (node_dim out_dim : ℕ) where
  pooling_type : String
  combination_layer : Fin out_dim → Fin node_dim → ℝ

/-- `UnweightedGraphReadout.__init__`: for a `pooling_type` outside
`("min", "max", "sum", "mean")` the code reaches
`raise ValueError(f"Unknown weighting type {self.pooling_type}!")`, but the
f-string reads `self.pooling_type` while `__init__` only ever assigned
`self._pooling_type`; `nn.Module.__getattr__` therefore raises
`AttributeError` while the message is being formatted, and the `ValueError` is
never constructed.  Construction still fails, but with `AttributeError`. -/
def UnweightedGraphReadout.init (node_dim out_dim : ℕ) (pooling_type : String)
    (combination_layer : Fin out_dim → Fin node_dim → ℝ) :
    Except PyErr (UnweightedGraphReadout node_dim out_dim) :=
  if pooling_type = "min" ∨ pooling_type = "max" ∨
      pooling_type = "sum" ∨ pooling_type = "mean" then
    Except.ok ⟨pooling_type, combination_layer⟩
  else
    Except.error (PyErr.attributeError
      "UnweightedGraphReadout object has no attribute pooling_type")

/-- `UnweightedGraphReadout.forward` (lines 231-244): segmented reduction by
the stored pooling kind, then the bias-free combination layer. -/
noncomputable def UnweightedGraphReadout.forward {node_dim out_dim : ℕ}
    (r : UnweightedGraphReadout node_dim out_dim)
    {V G : ℕ} (node_embeddings : Fin V → Fin node_dim → ℝ)
    (node_to_graph_id : Fin V → Fin G) : Fin G → Fin out_dim → ℝ :=
  fun g o => ∑ d, r.combination_layer o d *
    scatter_reduce r.pooling_type node_embeddings node_to_graph_id g d

/-- `torch.cat((a, b, c), dim=1)` for three `[G, D]` tensors. -/
noncomputable def cat3 {G D : ℕ} (a b c : Fin G → Fin D → ℝ) :
    Fin G → Fin (3 * D) → ℝ :=
  fun g k =>
    if h1 : k.val < D then a g ⟨k.val, h1⟩
    else if h2 : k.val < 2 * D then b g ⟨k.val - D, by omega⟩
    else c g ⟨k.val - 2 * D, by have hk := k.isLt; omega⟩

/-- Parameters of `CombinedGraphReadout` (`readout.py`, lines 67-110): a
weighted-mean pooler, a weighted-sum pooler, a max pooler (each with the same
`node_dim`/`out_dim`, the weighted ones with the default `num_mlp_layers = 1`),
and the bias-free combination layer `nn.Linear(3 * out_dim, out_dim,
bias=False)`. -/
structure CombinedGraphReadout (node_dim out_dim num_heads head_dim : ℕ) where
  weighted_mean_pooler :
    MultiHeadWeightedGraphReadout node_dim out_dim num_heads head_dim 1
  weighted_sum_pooler :
    MultiHeadWeightedGraphReadout node_dim out_dim num_heads head_dim 1
  max_pooler : UnweightedGraphReadout node_dim out_dim
  combination_layer : Fin out_dim → Fin (3 * out_dim) → ℝ

/-- `CombinedGraphReadout.__init__`: build the three sub-poolers with the
literal kinds `"weighted_mean"`, `"weighted_sum"` and `"max"` plus the final
combination layer (fresh parameters taken as arguments). -/
def CombinedGraphReadout.init (node_dim out_dim num_heads head_dim : ℕ)
    (mean_scoring :
      MLPParams node_dim (List.replicate 1 (head_dim * num_heads)) num_heads)
    (mean_transformation :
      MLPParams node_dim (List.replicate 1 (head_dim * num_heads)) (num_heads * head_dim))
    (mean_combination : Fin out_dim → Fin (num_heads * head_dim) → ℝ)
    (sum_scoring :
      MLPParams node_dim (List.replicate 1 (head_dim * num_heads)) num_heads)
    (sum_transformation :
      MLPParams node_dim (List.replicate 1 (head_dim * num_heads)) (num_heads * head_dim))
    (sum_combination : Fin out_dim → Fin (num_heads * head_dim) → ℝ)
    (max_combination : Fin out_dim → Fin node_dim → ℝ)
    (combination_layer : Fin out_dim → Fin (3 * out_dim) → ℝ) :
    Except PyErr (CombinedGraphReadout node_dim out_dim num_heads head_dim) := do
  let wm ← MultiHeadWeightedGraphReadout.init node_dim out_dim num_heads head_dim 1
    "weighted_mean" mean_scoring mean_transformation mean_combination
  let ws ← MultiHeadWeightedGraphReadout.init node_dim out_dim num_heads head_dim 1
    "weighted_sum" sum_scoring sum_transformation sum_combination
  let mx ← UnweightedGraphReadout.init node_dim out_dim "max" max_combination
  return ⟨wm, ws, mx, combination_layer⟩

/-- `CombinedGraphReadout.forward` (lines 112-125): run the three sub-poolers
on the same inputs, concatenate along the feature axis, apply
`nn.functional.relu`, then the bias-free combination layer. -/
noncomputable def CombinedGraphReadout.forward
    {node_dim out_dim num_heads head_dim : ℕ}
    (r : CombinedGraphReadout node_dim out_dim num_heads head_dim)
    {V G : ℕ} (node_embeddings : Fin V → Fin node_dim → ℝ)
    (node_to_graph_id : Fin V → Fin G) :
    Except PyErr (Fin G → Fin out_dim → ℝ) := do
  let mean_graph_repr ← r.weighted_mean_pooler.forward node_embeddings node_to_graph_id
  let sum_graph_repr ← r.weighted_sum_pooler.forward node_embeddings node_to_graph_id
  let max_graph_repr := r.max_pooler.forward node_embeddings node_to_graph_id
  let raw_graph_repr := cat3 mean_graph_repr sum_graph_repr max_graph_repr
  return fun g o => ∑ k, r.combination_layer o k * relu (raw_graph_repr g k)

/-! ### Helper lemmas about the embedded primitives -/

theorem graphNodes_eq_of_mem {V G : ℕ} {ids : Fin V → Fin G} {g : Fin G}
    {i : Fin V} (hi : i ∈ graphNodes ids g) :
    graphNodes ids (ids i) = graphNodes ids g := by
  rw [mem_graphNodes] at hi
  rw [hi]

theorem groupMax_eq_of_mem {V G H : ℕ} (src : Fin V → Fin H → ℝ)
    {ids : Fin V → Fin G} {g : Fin G} {i : Fin V}
    (hi : i ∈ graphNodes ids g) (hg : (graphNodes ids g).Nonempty) (h : Fin H) :
    groupMax src ids i h = (graphNodes ids g).sup' hg (fun j => src j h) := by
  unfold groupMax
  exact Finset.sup'_congr _ (graphNodes_eq_of_mem hi) (fun _ _ => rfl)

theorem scatter_softmax_apply_of_mem {V G H : ℕ} (src : Fin V → Fin H → ℝ)
    {ids : Fin V → Fin G} {g : Fin G} {i : Fin V}
    (hi : i ∈ graphNodes ids g) (hg : (graphNodes ids g).Nonempty) (h : Fin H) :
    scatter_softmax src ids i h =
      Real.exp (src i h - (graphNodes ids g).sup' hg (fun j => src j h)) /
        ∑ j ∈ graphNodes ids g,
          Real.exp (src j h - (graphNodes ids g).sup' hg (fun j => src j h)) := by
  unfold scatter_softmax
  rw [groupMax_eq_of_mem src hi hg h, graphNodes_eq_of_mem hi]
  congr 1
  exact Finset.sum_congr rfl (fun j hj => by rw [groupMax_eq_of_mem src hj hg h])

theorem scatter_softmax_denom_pos {V G H : ℕ} (src : Fin V → Fin H → ℝ)
    {ids : Fin V → Fin G} {g : Fin G} (hg : (graphNodes ids g).Nonempty)
    (h : Fin H) (M : ℝ) :
    0 < ∑ j ∈ graphNodes ids g, Real.exp (src j h - M) :=
  Finset.sum_pos (fun _ _ => Real.exp_pos _) hg

theorem scatter_softmax_pos {V G H : ℕ} (src : Fin V → Fin H → ℝ)
    (ids : Fin V → Fin G) (i : Fin V) (h : Fin H) :
    0 < scatter_softmax src ids i h := by
  have hi := self_mem_graphNodes ids i
  have hg : (graphNodes ids (ids i)).Nonempty := ⟨i, hi⟩
  rw [scatter_softmax_apply_of_mem src hi hg h]
  exact div_pos (Real.exp_pos _) (scatter_softmax_denom_pos src hg h _)

theorem scatter_softmax_sum_eq_one {V G H : ℕ} (src : Fin V → Fin H → ℝ)
    (ids : Fin V → Fin G) (g : Fin G) (hg : (graphNodes ids g).Nonempty)
    (h : Fin H) :
    ∑ i ∈ graphNodes ids g, scatter_softmax src ids i h = 1 := by
  have hM :
      ∑ i ∈ graphNodes ids g, scatter_softmax src ids i h =
        (∑ i ∈ graphNodes ids g,
            Real.exp (src i h - (graphNodes ids g).sup' hg (fun j => src j h))) /
          ∑ j ∈ graphNodes ids g,
            Real.exp (src j h - (graphNodes ids g).sup' hg (fun j => src j h)) := by
    rw [Finset.sum_div]
    exact Finset.sum_congr rfl
      (fun i hi => scatter_softmax_apply_of_mem src hi hg h)
  rw [hM]
  exact div_self (ne_of_gt (scatter_softmax_denom_pos src hg h _))

theorem sigmoid_pos (x : ℝ) : 0 < sigmoid x := by
  unfold sigmoid
  have hx := Real.exp_pos (-x)
  positivity

theorem sigmoid_lt_one (x : ℝ) : sigmoid x < 1 := by
  unfold sigmoid
  have hx := Real.exp_pos (-x)
  rw [div_lt_one (by linarith)]
  linarith

theorem sigmoid_zero : sigmoid 0 = 1 / 2 := by
  unfold sigmoid
  rw [neg_zero, Real.exp_zero]
  norm_num

theorem flatIdx_headOf_dimOf {H D : ℕ} (k : Fin (H * D)) :
    flatIdx (headOf k) (dimOf k) = k := by
  unfold flatIdx headOf dimOf
  apply Fin.ext
  simp only
  rw [mul_comm (k.val / D) D]
  exact Nat.div_add_mod k.val D

theorem flatten3_mul {V H D : ℕ} (w : Fin V → Fin H → ℝ)
    (vals : Fin V → Fin (H * D) → ℝ) (i : Fin V) (k : Fin (H * D)) :
    flatten3 (fun i h d => w i h * view3 vals i h d) i k =
      w i (headOf k) * vals i k := by
  simp only [flatten3, view3, flatIdx_headOf_dimOf]

theorem indexAddList_eq {V G K : ℕ} (ids : Fin V → Fin G)
    (rows : Fin V → Fin K → ℝ) (l : List (Fin V))
    (acc : Fin G → Fin K → ℝ) (g : Fin G) (k : Fin K) :
    indexAddList ids rows l acc g k =
      acc g k + (l.map (fun i => if ids i = g then rows i k else 0)).sum := by
  induction l generalizing acc with
  | nil => simp [indexAddList]
  | cons i rest ih =>
      rw [indexAddList, ih]
      simp only [List.map_cons, List.sum_cons]
      split_ifs with h
      · ring
      · ring

theorem index_add_eq_sum {V G K : ℕ} (ids : Fin V → Fin G)
    (rows : Fin V → Fin K → ℝ) (g : Fin G) (k : Fin K) :
    index_add ids rows g k = ∑ i ∈ graphNodes ids g, rows i k := by
  unfold index_add
  rw [indexAddList_eq, zero_add, ← Fin.sum_univ_def]
  unfold graphNodes
  rw [Finset.sum_filter]

theorem MultiHeadWeightedGraphReadout.weights_weighted_sum
    {node_dim out_dim num_heads head_dim num_mlp_layers : ℕ}
    (r : MultiHeadWeightedGraphReadout node_dim out_dim num_heads head_dim num_mlp_layers)
    {V G : ℕ} (emb : Fin V → Fin node_dim → ℝ) (ids : Fin V → Fin G)
    (hwt : r.weighting_type = "weighted_sum") :
    r.weights emb ids = Except.ok (fun i h => sigmoid (r.scores emb i h)) := by
  unfold MultiHeadWeightedGraphReadout.weights
  rw [hwt]
  simp

theorem MultiHeadWeightedGraphReadout.weights_weighted_mean
    {node_dim out_dim num_heads head_dim num_mlp_layers : ℕ}
    (r : MultiHeadWeightedGraphReadout node_dim out_dim num_heads head_dim num_mlp_layers)
    {V G : ℕ} (emb : Fin V → Fin node_dim → ℝ) (ids : Fin V → Fin G)
    (hwt : r.weighting_type = "weighted_mean") :
    r.weights emb ids = Except.ok (scatter_softmax (r.scores emb) ids) := by
  unfold MultiHeadWeightedGraphReadout.weights
  rw [hwt]
  simp

theorem MultiHeadWeightedGraphReadout.weights_ok_of_valid
    {node_dim out_dim num_heads head_dim num_mlp_layers : ℕ}
    (r : MultiHeadWeightedGraphReadout node_dim out_dim num_heads head_dim num_mlp_layers)
    {V G : ℕ} (emb : Fin V → Fin node_dim → ℝ) (ids : Fin V → Fin G)
    (hwt : r.weighting_type = "weighted_sum" ∨ r.weighting_type = "weighted_mean") :
    ∃ w, r.weights emb ids = Except.ok w := by
  rcases hwt with h | h
  · exact ⟨_, r.weights_weighted_sum emb ids h⟩
  · exact ⟨_, r.weights_weighted_mean emb ids h⟩

theorem MultiHeadWeightedGraphReadout.forward_eq_segmented_sum
    {node_dim out_dim num_heads head_dim num_mlp_layers : ℕ}
    (r : MultiHeadWeightedGraphReadout node_dim out_dim num_heads head_dim num_mlp_layers)
    {V G : ℕ} (emb : Fin V → Fin node_dim → ℝ) (ids : Fin V → Fin G)
    (w : Fin V → Fin num_heads → ℝ) (hw : r.weights emb ids = Except.ok w) :
    r.forward emb ids = Except.ok (fun g o =>
      ∑ k, r.combination_layer o k *
        ∑ i ∈ graphNodes ids g, w i (headOf k) * r.values emb i k) := by
  unfold MultiHeadWeightedGraphReadout.forward
  rw [hw]
  show Except.ok _ = _
  congr 1
  funext g o
  refine Finset.sum_congr rfl (fun k _ => ?_)
  congr 1
  rw [index_add_eq_sum]
  exact Finset.sum_congr rfl (fun i _ => flatten3_mul w (r.values emb) i k)

theorem scatter_reduce_sum {V G D : ℕ} (src : Fin V → Fin D → ℝ)
    (ids : Fin V → Fin G) (g : Fin G) (d : Fin D) :
    scatter_reduce "sum" src ids g d = ∑ i ∈ graphNodes ids g, src i d := by
  simp [scatter_reduce]

theorem scatter_reduce_mean {V G D : ℕ} (src : Fin V → Fin D → ℝ)
    (ids : Fin V → Fin G) (g : Fin G) (d : Fin D) :
    scatter_reduce "mean" src ids g d =
      (∑ i ∈ graphNodes ids g, src i d) /
        ((max 1 (graphNodes ids g).card : ℕ) : ℝ) := by
  simp [scatter_reduce]

theorem scatter_reduce_max {V G D : ℕ} (src : Fin V → Fin D → ℝ)
    (ids : Fin V → Fin G) (g : Fin G) (d : Fin D) :
    scatter_reduce "max" src ids g d =
      if h : (graphNodes ids g).Nonempty then
        (graphNodes ids g).sup' h (fun i => src i d)
      else 0 := by
  simp [scatter_reduce]

theorem scatter_reduce_min {V G D : ℕ} (src : Fin V → Fin D → ℝ)
    (ids : Fin V → Fin G) (g : Fin G) (d : Fin D) :
    scatter_reduce "min" src ids g d =
      if h : (graphNodes ids g).Nonempty then
        (graphNodes ids g).inf' h (fun i => src i d)
      else 0 := by
  simp [scatter_reduce]

/-! ### Concrete parameter fixtures used by witnesses -/

/-- An `nn.Linear` layer whose weight and bias are all zero. -/
noncomputable def zeroLinearLayer (a b : ℕ) : LinearLayer a b :=
  ⟨fun _ _ => 0, fun _ => 0⟩

/-- An `MLP` whose every layer is all zero. -/
noncomputable def zeroMLPParams : (i : ℕ) → (dims : List ℕ) → (o : ℕ) → MLPParams i dims o
  | i, [], o => .last (zeroLinearLayer i o)
  | i, h :: t, o => .hidden (zeroLinearLayer i h) (zeroMLPParams h t o)

theorem zeroLinearLayer_apply (a b : ℕ) (x : Fin a → ℝ) (j : Fin b) :
    (zeroLinearLayer a b).apply x j = 0 := by
  simp [zeroLinearLayer, LinearLayer.apply]

theorem zeroMLPParams_forward (i : ℕ) (dims : List ℕ) (o : ℕ) :
    ∀ (x : Fin i → ℝ) (j : Fin o), (zeroMLPParams i dims o).forward x j = 0 := by
  induction dims generalizing i with
  | nil =>
      intro x j
      simp [zeroMLPParams, MLPParams.forward, zeroLinearLayer_apply]
  | cons hdim t ih =>
      intro x j
      simp only [zeroMLPParams, MLPParams.forward]
      exact ih hdim _ j

/-- Zero scoring MLP for a 1/1/1/1 readout with no hidden layers. -/
noncomputable def mlpZscore : MLPParams 1 (List.replicate 0 (1 * 1)) 1 :=
  zeroMLPParams 1 (List.replicate 0 (1 * 1)) 1

/-- Zero transformation MLP for a 1/1/1/1 readout with no hidden layers. -/
noncomputable def mlpZtransf : MLPParams 1 (List.replicate 0 (1 * 1)) (1 * 1) :=
  zeroMLPParams 1 (List.replicate 0 (1 * 1)) (1 * 1)

/-- A concrete `weighted_sum` readout with all-zero parameters. -/
noncomputable def rWS : MultiHeadWeightedGraphReadout 1 1 1 1 0 :=
  ⟨"weighted_sum", mlpZscore, mlpZtransf, fun _ _ => 0⟩

/-- A concrete `weighted_mean` readout with all-zero parameters. -/
noncomputable def rWM : MultiHeadWeightedGraphReadout 1 1 1 1 0 :=
  ⟨"weighted_mean", mlpZscore, mlpZtransf, fun _ _ => 0⟩

/-- Three nodes, all features zero. -/
noncomputable def embZ3 : Fin 3 → Fin 1 → ℝ := fun _ _ => 0

/-- Three nodes all assigned to the single graph `0`. -/
def idsZ3 : Fin 3 → Fin 1 := fun _ => 0

/-! ### Claim theorems -/

/-- C1: `MultiHeadWeightedGraphReadout` construction raises
`ValueError` for every `weighting_type` other than `"weighted_sum"` and
`"weighted_mean"`, and succeeds without raising for those two values. -/
theorem C1_multihead_init_validation
    (node_dim out_dim num_heads head_dim num_mlp_layers : ℕ) (weighting_type : String)
    (sp : MLPParams node_dim (List.replicate num_mlp_layers (head_dim * num_heads)) num_heads)
    (tp : MLPParams node_dim (List.replicate num_mlp_layers (head_dim * num_heads))
      (num_heads * head_dim))
    (cb : Fin out_dim → Fin (num_heads * head_dim) → ℝ) :
    (weighting_type = "weighted_sum" ∨ weighting_type = "weighted_mean" →
      MultiHeadWeightedGraphReadout.init node_dim out_dim num_heads head_dim
          num_mlp_layers weighting_type sp tp cb =
        Except.ok ⟨weighting_type, sp, tp, cb⟩) ∧
    (weighting_type ≠ "weighted_sum" ∧ weighting_type ≠ "weighted_mean" →
      MultiHeadWeightedGraphReadout.init node_dim out_dim num_heads head_dim
          num_mlp_layers weighting_type sp tp cb =
        Except.error
          (PyErr.valueError ("Unknown weighting type " ++ weighting_type ++ "!"))) := by
  constructor
  · intro h
    unfold MultiHeadWeightedGraphReadout.init
    rw [if_pos h]
  · intro h
    unfold MultiHeadWeightedGraphReadout.init
    rw [if_neg (by tauto)]

/-- Witness for C1: construction succeeds at `"weighted_sum"` and raises
`ValueError` at `"softmax"`. -/
theorem C1_multihead_init_validation_witness :
    MultiHeadWeightedGraphReadout.init 1 1 1 1 0 "weighted_sum"
        mlpZscore mlpZtransf (fun _ _ => 0) =
      Except.ok ⟨"weighted_sum", mlpZscore, mlpZtransf, fun _ _ => 0⟩ ∧
    MultiHeadWeightedGraphReadout.init 1 1 1 1 0 "softmax"
        mlpZscore mlpZtransf (fun _ _ => 0) =
      Except.error
        (PyErr.valueError ("Unknown weighting type " ++ "softmax" ++ "!")) :=
  ⟨(C1_multihead_init_validation 1 1 1 1 0 "weighted_sum" mlpZscore mlpZtransf
      (fun _ _ => 0)).1 (Or.inl rfl),
   (C1_multihead_init_validation 1 1 1 1 0 "softmax" mlpZscore mlpZtransf
      (fun _ _ => 0)).2 (by constructor <;> decide)⟩

/-- C2 (code bug): for an unrecognized `pooling_type` the constructor of
`UnweightedGraphReadout` does fail at construction time, but not with the
intended invalid-configuration `ValueError`: the error message's f-string reads
the never-assigned attribute `self.pooling_type` (the field is
`self._pooling_type`), so `AttributeError` is raised instead; the four
recognized values construct successfully. -/
theorem C2_unweighted_init_attribute_error :
    UnweightedGraphReadout.init 1 1 "avg" (fun _ _ => 0) =
      Except.error (PyErr.attributeError
        "UnweightedGraphReadout object has no attribute pooling_type") ∧
    UnweightedGraphReadout.init 1 1 "min" (fun _ _ => 0) =
      Except.ok ⟨"min", fun _ _ => 0⟩ ∧
    UnweightedGraphReadout.init 1 1 "max" (fun _ _ => 0) =
      Except.ok ⟨"max", fun _ _ => 0⟩ ∧
    UnweightedGraphReadout.init 1 1 "sum" (fun _ _ => 0) =
      Except.ok ⟨"sum", fun _ _ => 0⟩ ∧
    UnweightedGraphReadout.init 1 1 "mean" (fun _ _ => 0) =
      Except.ok ⟨"mean", fun _ _ => 0⟩ := by
  refine ⟨?_, ?_, ?_, ?_, ?_⟩
  · unfold UnweightedGraphReadout.init
    rw [if_neg (by decide)]
  · unfold UnweightedGraphReadout.init
    rw [if_pos (by decide)]
  · unfold UnweightedGraphReadout.init
    rw [if_pos (by decide)]
  · unfold UnweightedGraphReadout.init
    rw [if_pos (by decide)]
  · unfold UnweightedGraphReadout.init
    rw [if_pos (by decide)]

/-- If `MultiHeadWeightedGraphReadout.__init__` succeeded, the stored
`weighting_type` is one of the two recognized values. -/
theorem MultiHeadWeightedGraphReadout.init_ok_valid
    {node_dim out_dim num_heads head_dim num_mlp_layers : ℕ} {weighting_type : String}
    {sp : MLPParams node_dim (List.replicate num_mlp_layers (head_dim * num_heads)) num_heads}
    {tp : MLPParams node_dim (List.replicate num_mlp_layers (head_dim * num_heads))
      (num_heads * head_dim)}
    {cb : Fin out_dim → Fin (num_heads * head_dim) → ℝ}
    {r : MultiHeadWeightedGraphReadout node_dim out_dim num_heads head_dim num_mlp_layers}
    (h : MultiHeadWeightedGraphReadout.init node_dim out_dim num_heads head_dim
        num_mlp_layers weighting_type sp tp cb = Except.ok r) :
    r.weighting_type = "weighted_sum" ∨ r.weighting_type = "weighted_mean" := by
  unfold MultiHeadWeightedGraphReadout.init at h
  split at h
  · rename_i hcond
    injection h with h
    subst h
    exact hcond
  · exact Except.noConfusion h

/-- C3: a `MultiHeadWeightedGraphReadout` whose construction succeeded never
raises from `forward`: the unknown-weighting-type branch is unreachable. -/
theorem C3_forward_never_raises
    {node_dim out_dim num_heads head_dim num_mlp_layers : ℕ} {weighting_type : String}
    {sp : MLPParams node_dim (List.replicate num_mlp_layers (head_dim * num_heads)) num_heads}
    {tp : MLPParams node_dim (List.replicate num_mlp_layers (head_dim * num_heads))
      (num_heads * head_dim)}
    {cb : Fin out_dim → Fin (num_heads * head_dim) → ℝ}
    {r : MultiHeadWeightedGraphReadout node_dim out_dim num_heads head_dim num_mlp_layers}
    (h : MultiHeadWeightedGraphReadout.init node_dim out_dim num_heads head_dim
        num_mlp_layers weighting_type sp tp cb = Except.ok r)
    {V G : ℕ} (emb : Fin V → Fin node_dim → ℝ) (ids : Fin V → Fin G) :
    ∃ M, r.forward emb ids = Except.ok M := by
  obtain ⟨w, hw⟩ :=
    r.weights_ok_of_valid emb ids (MultiHeadWeightedGraphReadout.init_ok_valid h)
  exact ⟨_, r.forward_eq_segmented_sum emb ids w hw⟩

/-- Witness for C3: a concrete successfully constructed readout and inputs on
which `forward` returns a result. -/
theorem C3_forward_never_raises_witness :
    MultiHeadWeightedGraphReadout.init 1 1 1 1 0 "weighted_sum"
        mlpZscore mlpZtransf (fun _ _ => 0) = Except.ok rWS ∧
    ∃ M, rWS.forward embZ3 idsZ3 = Except.ok M :=
  have hinit : MultiHeadWeightedGraphReadout.init 1 1 1 1 0 "weighted_sum"
      mlpZscore mlpZtransf (fun _ _ => 0) = Except.ok rWS := by
    unfold MultiHeadWeightedGraphReadout.init rWS
    rw [if_pos (Or.inl rfl)]
  ⟨hinit, C3_forward_never_raises hinit embZ3 idsZ3⟩

/-- C4: with `weighting_type = "weighted_mean"`, the weights computed in
`forward` are the per-graph, per-head softmax of the scorer MLP outputs
grouped by `node_to_graph_id`: they are non-negative and, for every graph with
at least one node and every head, sum to 1 over that graph's nodes. -/
theorem C4_weighted_mean_weights_sum_to_one
    {node_dim out_dim num_heads head_dim num_mlp_layers : ℕ}
    (r : MultiHeadWeightedGraphReadout node_dim out_dim num_heads head_dim num_mlp_layers)
    (hwt : r.weighting_type = "weighted_mean")
    {V G : ℕ} (emb : Fin V → Fin node_dim → ℝ) (ids : Fin V → Fin G)
    (w : Fin V → Fin num_heads → ℝ) (hw : r.weights emb ids = Except.ok w) :
    w = scatter_softmax (r.scores emb) ids ∧
    (∀ (i : Fin V) (h : Fin num_heads), 0 ≤ w i h) ∧
    (∀ (g : Fin G) (h : Fin num_heads), (graphNodes ids g).Nonempty →
      ∑ i ∈ graphNodes ids g, w i h = 1) := by
  have hw2 := r.weights_weighted_mean emb ids hwt
  rw [hw] at hw2
  injection hw2 with hw2
  subst hw2
  exact ⟨rfl, fun i h => le_of_lt (scatter_softmax_pos _ _ i h),
    fun g h hg => scatter_softmax_sum_eq_one _ _ g hg h⟩

/-- Witness for C4: a concrete `weighted_mean` readout on three nodes in one
graph, whose weights are the grouped softmax, are non-negative, and sum to 1
on the (nonempty) single graph. -/
theorem C4_weighted_mean_weights_sum_to_one_witness :
    rWM.weighting_type = "weighted_mean" ∧
    rWM.weights embZ3 idsZ3 =
      Except.ok (scatter_softmax (rWM.scores embZ3) idsZ3) ∧
    (∀ (i : Fin 3) (h : Fin 1),
      0 ≤ scatter_softmax (rWM.scores embZ3) idsZ3 i h) ∧
    ((graphNodes idsZ3 0).Nonempty ∧
      ∀ h : Fin 1,
        ∑ i ∈ graphNodes idsZ3 0, scatter_softmax (rWM.scores embZ3) idsZ3 i h = 1) :=
  have hw : rWM.weights embZ3 idsZ3 =
      Except.ok (scatter_softmax (rWM.scores embZ3) idsZ3) :=
    rWM.weights_weighted_mean embZ3 idsZ3 rfl
  have hc := C4_weighted_mean_weights_sum_to_one rWM rfl embZ3 idsZ3 _ hw
  have hne : (graphNodes idsZ3 0).Nonempty := ⟨0, self_mem_graphNodes idsZ3 0⟩
  ⟨rfl, hw, hc.2.1, hne, fun h => hc.2.2 0 h hne⟩

/-- The sigmoid weights of the all-zero `weighted_sum` fixture on `embZ3`. -/
noncomputable def wWS : Fin 3 → Fin 1 → ℝ :=
  fun i h => sigmoid (rWS.scores embZ3 i h)

theorem rWS_scores_eq_zero (i : Fin 3) (h : Fin 1) :
    rWS.scores embZ3 i h = 0 := by
  show (zeroMLPParams 1 (List.replicate 0 (1 * 1)) 1).forward (embZ3 i) h = 0
  exact zeroMLPParams_forward 1 _ 1 (embZ3 i) h

theorem graphNodes_idsZ3 : graphNodes idsZ3 0 = Finset.univ := by
  apply Finset.ext
  intro i
  simp [graphNodes, idsZ3]

/-- C5: with `weighting_type = "weighted_sum"`, every weight computed in
`forward` is the logistic sigmoid of the node's score, hence lies strictly in
(0,1); and no per-graph normalization is applied: on a concrete instance the
weights of a graph's nodes sum to 3/2 ≠ 1. -/
theorem C5_weighted_sum_sigmoid_weights :
    (∀ {node_dim out_dim num_heads head_dim num_mlp_layers : ℕ}
      (r : MultiHeadWeightedGraphReadout node_dim out_dim num_heads head_dim num_mlp_layers),
      r.weighting_type = "weighted_sum" →
      ∀ {V G : ℕ} (emb : Fin V → Fin node_dim → ℝ) (ids : Fin V → Fin G)
        (w : Fin V → Fin num_heads → ℝ), r.weights emb ids = Except.ok w →
        ∀ (i : Fin V) (h : Fin num_heads),
          w i h = sigmoid (r.scores emb i h) ∧ 0 < w i h ∧ w i h < 1) ∧
    (rWS.weights embZ3 idsZ3 = Except.ok wWS ∧
      ∑ i ∈ graphNodes idsZ3 0, wWS i 0 ≠ 1) := by
  constructor
  · intro nd od nh hd nl r hwt V G emb ids w hw i h
    have hw2 := r.weights_weighted_sum emb ids hwt
    rw [hw] at hw2
    injection hw2 with hw2
    subst hw2
    exact ⟨rfl, sigmoid_pos _, sigmoid_lt_one _⟩
  · refine ⟨rWS.weights_weighted_sum embZ3 idsZ3 rfl, ?_⟩
    have hval : ∀ i : Fin 3, wWS i 0 = 1 / 2 := by
      intro i
      unfold wWS
      rw [rWS_scores_eq_zero i 0, sigmoid_zero]
    rw [graphNodes_idsZ3]
    rw [Finset.sum_congr rfl (fun i _ => hval i)]
    rw [Finset.sum_const]
    norm_num

/-- Witness for C5: the first part of the claim applied to the concrete
`weighted_sum` fixture at node 0, head 0. -/
theorem C5_weighted_sum_sigmoid_weights_witness :
    rWS.weighting_type = "weighted_sum" ∧
    rWS.weights embZ3 idsZ3 = Except.ok wWS ∧
    (wWS 0 0 = sigmoid (rWS.scores embZ3 0 0) ∧ 0 < wWS 0 0 ∧ wWS 0 0 < 1) :=
  have hw : rWS.weights embZ3 idsZ3 = Except.ok wWS :=
    rWS.weights_weighted_sum embZ3 idsZ3 rfl
  ⟨rfl, hw, C5_weighted_sum_sigmoid_weights.1 rWS rfl embZ3 idsZ3 wWS hw 0 0⟩

/-- C6: the per-graph aggregation in `forward` equals the segmented sum:
starting from a zero `[num_graphs, num_heads*head_dim]` matrix, every node's
weighted value row (weights broadcast over `head_dim` times the transform MLP
output) is added into the row of its owning graph (`index_add`), and the
result goes through the single bias-free learned projection; equivalently the
accumulator row of `g` is the `Finset` sum over `g`'s nodes. -/
theorem C6_forward_segmented_sum_projection
    {node_dim out_dim num_heads head_dim num_mlp_layers : ℕ}
    (r : MultiHeadWeightedGraphReadout node_dim out_dim num_heads head_dim num_mlp_layers)
    {V G : ℕ} (emb : Fin V → Fin node_dim → ℝ) (ids : Fin V → Fin G)
    (w : Fin V → Fin num_heads → ℝ) (hw : r.weights emb ids = Except.ok w) :
    r.forward emb ids = Except.ok (fun g o =>
      ∑ k, r.combination_layer o k *
        index_add ids (fun i k => w i (headOf k) * r.values emb i k) g k) ∧
    r.forward emb ids = Except.ok (fun g o =>
      ∑ k, r.combination_layer o k *
        ∑ i ∈ graphNodes ids g, w i (headOf k) * r.values emb i k) := by
  have h2 := r.forward_eq_segmented_sum emb ids w hw
  refine ⟨?_, h2⟩
  rw [h2]
  congr 1
  funext g o
  refine Finset.sum_congr rfl (fun k _ => ?_)
  rw [index_add_eq_sum]

/-- Witness for C6: the segmented-sum form of `forward` on the concrete
`weighted_sum` fixture. -/
theorem C6_forward_segmented_sum_projection_witness :
    rWS.weights embZ3 idsZ3 = Except.ok wWS ∧
    rWS.forward embZ3 idsZ3 = Except.ok (fun g o =>
      ∑ k, rWS.combination_layer o k *
        index_add idsZ3 (fun i k => wWS i (headOf k) * rWS.values embZ3 i k) g k) :=
  have hw : rWS.weights embZ3 idsZ3 = Except.ok wWS :=
    rWS.weights_weighted_sum embZ3 idsZ3 rfl
  ⟨hw, (C6_forward_segmented_sum_projection rWS embZ3 idsZ3 wWS hw).1⟩

/-- `CombinedGraphReadout.__init__` always succeeds: the three sub-poolers are
built with the literal kinds `"weighted_mean"`, `"weighted_sum"`, `"max"`. -/
theorem CombinedGraphReadout.init_eq_ok (node_dim out_dim num_heads head_dim : ℕ)
    (ms : MLPParams node_dim (List.replicate 1 (head_dim * num_heads)) num_heads)
    (mt : MLPParams node_dim (List.replicate 1 (head_dim * num_heads)) (num_heads * head_dim))
    (mc : Fin out_dim → Fin (num_heads * head_dim) → ℝ)
    (ss : MLPParams node_dim (List.replicate 1 (head_dim * num_heads)) num_heads)
    (st : MLPParams node_dim (List.replicate 1 (head_dim * num_heads)) (num_heads * head_dim))
    (sc : Fin out_dim → Fin (num_heads * head_dim) → ℝ)
    (xc : Fin out_dim → Fin node_dim → ℝ)
    (cl : Fin out_dim → Fin (3 * out_dim) → ℝ) :
    CombinedGraphReadout.init node_dim out_dim num_heads head_dim
        ms mt mc ss st sc xc cl =
      Except.ok ⟨⟨"weighted_mean", ms, mt, mc⟩, ⟨"weighted_sum", ss, st, sc⟩,
        ⟨"max", xc⟩, cl⟩ := by
  rfl

/-- C7: for a successfully constructed `CombinedGraphReadout`, `forward`
equals: run the weighted-mean pooler, the weighted-sum pooler and the
unweighted max pooler on the same inputs, concatenate the three
`[num_graphs, out_dim]` results into `[num_graphs, 3*out_dim]`, apply `relu`
elementwise, then the bias-free projection back to `out_dim`. -/
theorem C7_combined_forward_concat_relu_project
    {node_dim out_dim num_heads head_dim : ℕ}
    {ms : MLPParams node_dim (List.replicate 1 (head_dim * num_heads)) num_heads}
    {mt : MLPParams node_dim (List.replicate 1 (head_dim * num_heads)) (num_heads * head_dim)}
    {mc : Fin out_dim → Fin (num_heads * head_dim) → ℝ}
    {ss : MLPParams node_dim (List.replicate 1 (head_dim * num_heads)) num_heads}
    {st : MLPParams node_dim (List.replicate 1 (head_dim * num_heads)) (num_heads * head_dim)}
    {sc : Fin out_dim → Fin (num_heads * head_dim) → ℝ}
    {xc : Fin out_dim → Fin node_dim → ℝ}
    {cl : Fin out_dim → Fin (3 * out_dim) → ℝ}
    {c : CombinedGraphReadout node_dim out_dim num_heads head_dim}
    (h : CombinedGraphReadout.init node_dim out_dim num_heads head_dim
        ms mt mc ss st sc xc cl = Except.ok c)
    {V G : ℕ} (emb : Fin V → Fin node_dim → ℝ) (ids : Fin V → Fin G) :
    ∃ M S, c.weighted_mean_pooler.forward emb ids = Except.ok M ∧
      c.weighted_sum_pooler.forward emb ids = Except.ok S ∧
      c.forward emb ids = Except.ok (fun g o =>
        ∑ k, c.combination_layer o k *
          relu (cat3 M S (c.max_pooler.forward emb ids) g k)) := by
  rw [CombinedGraphReadout.init_eq_ok] at h
  injection h with h
  subst h
  obtain ⟨wm, hwm⟩ :=
    MultiHeadWeightedGraphReadout.weights_ok_of_valid
      (⟨"weighted_mean", ms, mt, mc⟩ :
        MultiHeadWeightedGraphReadout node_dim out_dim num_heads head_dim 1)
      emb ids (Or.inr rfl)
  obtain ⟨ws, hws⟩ :=
    MultiHeadWeightedGraphReadout.weights_ok_of_valid
      (⟨"weighted_sum", ss, st, sc⟩ :
        MultiHeadWeightedGraphReadout node_dim out_dim num_heads head_dim 1)
      emb ids (Or.inl rfl)
  have hM := MultiHeadWeightedGraphReadout.forward_eq_segmented_sum _ emb ids wm hwm
  have hS := MultiHeadWeightedGraphReadout.forward_eq_segmented_sum _ emb ids ws hws
  refine ⟨_, _, hM, hS, ?_⟩
  unfold CombinedGraphReadout.forward
  rw [hM, hS]
  rfl

/-- The combined fixture with all-zero parameters (1 hidden layer MLPs). -/
noncomputable def cCombined : CombinedGraphReadout 1 1 1 1 :=
  ⟨⟨"weighted_mean", zeroMLPParams 1 (List.replicate 1 (1 * 1)) 1,
      zeroMLPParams 1 (List.replicate 1 (1 * 1)) (1 * 1), fun _ _ => 0⟩,
   ⟨"weighted_sum", zeroMLPParams 1 (List.replicate 1 (1 * 1)) 1,
      zeroMLPParams 1 (List.replicate 1 (1 * 1)) (1 * 1), fun _ _ => 0⟩,
   ⟨"max", fun _ _ => 0⟩, fun _ _ => 0⟩

/-- Witness for C7: the combined fixture is constructed by `init` and its
`forward` factors through concatenation, `relu`, and the final projection. -/
theorem C7_combined_forward_concat_relu_project_witness :
    CombinedGraphReadout.init 1 1 1 1
        (zeroMLPParams 1 (List.replicate 1 (1 * 1)) 1)
        (zeroMLPParams 1 (List.replicate 1 (1 * 1)) (1 * 1)) (fun _ _ => 0)
        (zeroMLPParams 1 (List.replicate 1 (1 * 1)) 1)
        (zeroMLPParams 1 (List.replicate 1 (1 * 1)) (1 * 1)) (fun _ _ => 0)
        (fun _ _ => 0) (fun _ _ => 0) = Except.ok cCombined ∧
    ∃ M S, cCombined.weighted_mean_pooler.forward embZ3 idsZ3 = Except.ok M ∧
      cCombined.weighted_sum_pooler.forward embZ3 idsZ3 = Except.ok S ∧
      cCombined.forward embZ3 idsZ3 = Except.ok (fun g o =>
        ∑ k, cCombined.combination_layer o k *
          relu (cat3 M S (cCombined.max_pooler.forward embZ3 idsZ3) g k)) :=
  have hinit : CombinedGraphReadout.init 1 1 1 1
      (zeroMLPParams 1 (List.replicate 1 (1 * 1)) 1)
      (zeroMLPParams 1 (List.replicate 1 (1 * 1)) (1 * 1)) (fun _ _ => 0)
      (zeroMLPParams 1 (List.replicate 1 (1 * 1)) 1)
      (zeroMLPParams 1 (List.replicate 1 (1 * 1)) (1 * 1)) (fun _ _ => 0)
      (fun _ _ => 0) (fun _ _ => 0) = Except.ok cCombined :=
    CombinedGraphReadout.init_eq_ok 1 1 1 1 _ _ _ _ _ _ _ _
  ⟨hinit, C7_combined_forward_concat_relu_project hinit embZ3 idsZ3⟩

/-! ### Permutation transport lemmas -/

theorem graphNodes_perm {V G : ℕ} (p : Equiv.Perm (Fin V)) (ids : Fin V → Fin G)
    (g : Fin G) :
    graphNodes (fun i => ids (p i)) g = (graphNodes ids g).map p.symm.toEmbedding := by
  ext j
  simp [graphNodes, Finset.mem_map_equiv]

theorem sum_graphNodes_perm {V G : ℕ} (p : Equiv.Perm (Fin V)) (ids : Fin V → Fin G)
    (g : Fin G) (F : Fin V → ℝ) :
    ∑ i ∈ graphNodes (fun a => ids (p a)) g, F (p i) = ∑ i ∈ graphNodes ids g, F i := by
  rw [graphNodes_perm, Finset.sum_map]
  exact Finset.sum_congr rfl (fun i _ => by simp)

theorem card_graphNodes_perm {V G : ℕ} (p : Equiv.Perm (Fin V)) (ids : Fin V → Fin G)
    (g : Fin G) :
    (graphNodes (fun a => ids (p a)) g).card = (graphNodes ids g).card := by
  rw [graphNodes_perm, Finset.card_map]

theorem nonempty_graphNodes_perm {V G : ℕ} (p : Equiv.Perm (Fin V))
    (ids : Fin V → Fin G) (g : Fin G) :
    (graphNodes (fun a => ids (p a)) g).Nonempty ↔ (graphNodes ids g).Nonempty := by
  rw [graphNodes_perm, Finset.map_nonempty]

theorem sup'_graphNodes_perm {V G : ℕ} (p : Equiv.Perm (Fin V)) (ids : Fin V → Fin G)
    (g : Fin G) (F : Fin V → ℝ)
    (h1 : (graphNodes (fun a => ids (p a)) g).Nonempty)
    (h2 : (graphNodes ids g).Nonempty) :
    (graphNodes (fun a => ids (p a)) g).sup' h1 (fun i => F (p i)) =
      (graphNodes ids g).sup' h2 F := by
  have e1 : (graphNodes (fun a => ids (p a)) g).sup' h1 (fun i => F (p i)) =
      ((graphNodes ids g).map p.symm.toEmbedding).sup'
        (Finset.map_nonempty.mpr h2) (fun i => F (p i)) :=
    Finset.sup'_congr h1 (graphNodes_perm p ids g) (fun i _ => rfl)
  rw [e1, Finset.sup'_map]
  exact Finset.sup'_congr _ rfl (fun i _ => by simp)

theorem inf'_graphNodes_perm {V G : ℕ} (p : Equiv.Perm (Fin V)) (ids : Fin V → Fin G)
    (g : Fin G) (F : Fin V → ℝ)
    (h1 : (graphNodes (fun a => ids (p a)) g).Nonempty)
    (h2 : (graphNodes ids g).Nonempty) :
    (graphNodes (fun a => ids (p a)) g).inf' h1 (fun i => F (p i)) =
      (graphNodes ids g).inf' h2 F := by
  have e1 : (graphNodes (fun a => ids (p a)) g).inf' h1 (fun i => F (p i)) =
      ((graphNodes ids g).map p.symm.toEmbedding).inf'
        (Finset.map_nonempty.mpr h2) (fun i => F (p i)) :=
    Finset.inf'_congr h1 (graphNodes_perm p ids g) (fun i _ => rfl)
  rw [e1, Finset.inf'_map]
  exact Finset.inf'_congr _ rfl (fun i _ => by simp)

theorem groupMax_perm {V G H : ℕ} (p : Equiv.Perm (Fin V)) (src : Fin V → Fin H → ℝ)
    (ids : Fin V → Fin G) (i : Fin V) (h : Fin H) :
    groupMax (fun a => src (p a)) (fun a => ids (p a)) i h = groupMax src ids (p i) h := by
  unfold groupMax
  exact sup'_graphNodes_perm p ids (ids (p i)) (fun j => src j h) _
    ⟨p i, self_mem_graphNodes ids (p i)⟩

theorem scatter_softmax_perm {V G H : ℕ} (p : Equiv.Perm (Fin V))
    (src : Fin V → Fin H → ℝ) (ids : Fin V → Fin G) (i : Fin V) (h : Fin H) :
    scatter_softmax (fun a => src (p a)) (fun a => ids (p a)) i h =
      scatter_softmax src ids (p i) h := by
  unfold scatter_softmax
  rw [groupMax_perm]
  congr 1
  calc ∑ j ∈ graphNodes (fun a => ids (p a)) ((fun a => ids (p a)) i),
        Real.exp ((fun a => src (p a)) j h -
          groupMax (fun a => src (p a)) (fun a => ids (p a)) j h)
      = ∑ j ∈ graphNodes (fun a => ids (p a)) (ids (p i)),
          Real.exp (src (p j) h - groupMax src ids (p j) h) :=
        Finset.sum_congr rfl (fun j _ => by rw [groupMax_perm])
    _ = ∑ j ∈ graphNodes ids (ids (p i)),
          Real.exp (src j h - groupMax src ids j h) :=
        sum_graphNodes_perm p ids (ids (p i))
          (fun j => Real.exp (src j h - groupMax src ids j h))

/-- If the weight normalisation raises, `forward` propagates the error. -/
theorem MultiHeadWeightedGraphReadout.forward_weights_error
    {node_dim out_dim num_heads head_dim num_mlp_layers : ℕ}
    (r : MultiHeadWeightedGraphReadout node_dim out_dim num_heads head_dim num_mlp_layers)
    {V G : ℕ} (emb : Fin V → Fin node_dim → ℝ) (ids : Fin V → Fin G)
    {e : PyErr} (he : r.weights emb ids = Except.error e) :
    r.forward emb ids = Except.error e := by
  unfold MultiHeadWeightedGraphReadout.forward
  rw [he]
  rfl

/-- With an unrecognized stored `weighting_type`, the weight normalisation
reaches the defensive `raise` branch. -/
theorem MultiHeadWeightedGraphReadout.weights_invalid
    {node_dim out_dim num_heads head_dim num_mlp_layers : ℕ}
    (r : MultiHeadWeightedGraphReadout node_dim out_dim num_heads head_dim num_mlp_layers)
    {V G : ℕ} (emb : Fin V → Fin node_dim → ℝ) (ids : Fin V → Fin G)
    (h1 : ¬r.weighting_type = "weighted_sum") (h2 : ¬r.weighting_type = "weighted_mean") :
    r.weights emb ids = Except.error
      (PyErr.valueError ("Unknown weighting type " ++ r.weighting_type ++ "!")) := by
  unfold MultiHeadWeightedGraphReadout.weights
  rw [if_neg h1, if_neg h2]

theorem multihead_forward_perm
    {node_dim out_dim num_heads head_dim num_mlp_layers V G : ℕ}
    (r : MultiHeadWeightedGraphReadout node_dim out_dim num_heads head_dim num_mlp_layers)
    (p : Equiv.Perm (Fin V)) (emb : Fin V → Fin node_dim → ℝ) (ids : Fin V → Fin G) :
    r.forward (fun i => emb (p i)) (fun i => ids (p i)) = r.forward emb ids := by
  by_cases h1 : r.weighting_type = "weighted_sum"
  · have hwP := r.weights_weighted_sum (fun i => emb (p i)) (fun i => ids (p i)) h1
    have hw := r.weights_weighted_sum emb ids h1
    rw [r.forward_eq_segmented_sum _ _ _ hwP, r.forward_eq_segmented_sum _ _ _ hw]
    congr 1
    funext g o
    refine Finset.sum_congr rfl (fun k _ => ?_)
    congr 1
    exact sum_graphNodes_perm p ids g
      (fun i => sigmoid (r.scores emb i (headOf k)) * r.values emb i k)
  · by_cases h2 : r.weighting_type = "weighted_mean"
    · have hwP := r.weights_weighted_mean (fun i => emb (p i)) (fun i => ids (p i)) h2
      have hw := r.weights_weighted_mean emb ids h2
      rw [r.forward_eq_segmented_sum _ _ _ hwP, r.forward_eq_segmented_sum _ _ _ hw]
      congr 1
      funext g o
      refine Finset.sum_congr rfl (fun k _ => ?_)
      congr 1
      calc ∑ i ∈ graphNodes (fun a => ids (p a)) g,
            scatter_softmax (r.scores (fun i => emb (p i))) (fun a => ids (p a)) i (headOf k) *
              r.values (fun i => emb (p i)) i k
          = ∑ i ∈ graphNodes (fun a => ids (p a)) g,
              scatter_softmax (r.scores emb) ids (p i) (headOf k) * r.values emb (p i) k :=
            Finset.sum_congr rfl (fun i _ =>
              congrArg (fun x => x * r.values emb (p i) k)
                (scatter_softmax_perm p (r.scores emb) ids i (headOf k)))
        _ = ∑ i ∈ graphNodes ids g,
              scatter_softmax (r.scores emb) ids i (headOf k) * r.values emb i k :=
            sum_graphNodes_perm p ids g
              (fun i => scatter_softmax (r.scores emb) ids i (headOf k) * r.values emb i k)
    · rw [r.forward_weights_error _ _ (r.weights_invalid _ _ h1 h2),
        r.forward_weights_error _ _ (r.weights_invalid emb ids h1 h2)]

theorem scatter_reduce_other {V G D : ℕ} (op : String) (src : Fin V → Fin D → ℝ)
    (ids : Fin V → Fin G) (g : Fin G) (d : Fin D)
    (h1 : ¬op = "sum") (h2 : ¬op = "mean") (h3 : ¬op = "max") (h4 : ¬op = "min") :
    scatter_reduce op src ids g d = 0 := by
  simp [scatter_reduce, h1, h2, h3, h4]

theorem scatter_reduce_perm {V G D : ℕ} (op : String) (p : Equiv.Perm (Fin V))
    (src : Fin V → Fin D → ℝ) (ids : Fin V → Fin G) :
    scatter_reduce op (fun i => src (p i)) (fun i => ids (p i)) =
      scatter_reduce op src ids := by
  funext g d
  by_cases h1 : op = "sum"
  · rw [h1, scatter_reduce_sum, scatter_reduce_sum]
    exact sum_graphNodes_perm p ids g (fun i => src i d)
  · by_cases h2 : op = "mean"
    · rw [h2, scatter_reduce_mean, scatter_reduce_mean, card_graphNodes_perm]
      congr 1
      exact sum_graphNodes_perm p ids g (fun i => src i d)
    · by_cases h3 : op = "max"
      · rw [h3, scatter_reduce_max, scatter_reduce_max]
        by_cases hne : (graphNodes ids g).Nonempty
        · rw [dif_pos hne, dif_pos ((nonempty_graphNodes_perm p ids g).mpr hne)]
          exact sup'_graphNodes_perm p ids g (fun i => src i d) _ hne
        · rw [dif_neg hne,
            dif_neg (fun hc => hne ((nonempty_graphNodes_perm p ids g).mp hc))]
      · by_cases h4 : op = "min"
        · rw [h4, scatter_reduce_min, scatter_reduce_min]
          by_cases hne : (graphNodes ids g).Nonempty
          · rw [dif_pos hne, dif_pos ((nonempty_graphNodes_perm p ids g).mpr hne)]
            exact inf'_graphNodes_perm p ids g (fun i => src i d) _ hne
          · rw [dif_neg hne,
              dif_neg (fun hc => hne ((nonempty_graphNodes_perm p ids g).mp hc))]
        · rw [scatter_reduce_other op _ _ g d h1 h2 h3 h4,
            scatter_reduce_other op _ _ g d h1 h2 h3 h4]

theorem unweighted_forward_perm {node_dim out_dim V G : ℕ}
    (u : UnweightedGraphReadout node_dim out_dim) (p : Equiv.Perm (Fin V))
    (emb : Fin V → Fin node_dim → ℝ) (ids : Fin V → Fin G) :
    u.forward (fun i => emb (p i)) (fun i => ids (p i)) = u.forward emb ids := by
  unfold UnweightedGraphReadout.forward
  rw [scatter_reduce_perm]

theorem combined_forward_perm {node_dim out_dim num_heads head_dim V G : ℕ}
    (c : CombinedGraphReadout node_dim out_dim num_heads head_dim)
    (p : Equiv.Perm (Fin V)) (emb : Fin V → Fin node_dim → ℝ) (ids : Fin V → Fin G) :
    c.forward (fun i => emb (p i)) (fun i => ids (p i)) = c.forward emb ids := by
  unfold CombinedGraphReadout.forward
  rw [multihead_forward_perm, multihead_forward_perm, unweighted_forward_perm]

/-- C8: for every readout variant with fixed parameters and every permutation
of the node indices, running `forward` on the permuted `node_embeddings` and
`node_to_graph_id` yields the same output as on the original input. -/
theorem C8_permutation_invariance
    {node_dim out_dim num_heads head_dim num_mlp_layers V G : ℕ}
    (p : Equiv.Perm (Fin V)) (emb : Fin V → Fin node_dim → ℝ) (ids : Fin V → Fin G) :
    (∀ r : MultiHeadWeightedGraphReadout node_dim out_dim num_heads head_dim num_mlp_layers,
      r.forward (fun i => emb (p i)) (fun i => ids (p i)) = r.forward emb ids) ∧
    (∀ u : UnweightedGraphReadout node_dim out_dim,
      u.forward (fun i => emb (p i)) (fun i => ids (p i)) = u.forward emb ids) ∧
    (∀ c : CombinedGraphReadout node_dim out_dim num_heads head_dim,
      c.forward (fun i => emb (p i)) (fun i => ids (p i)) = c.forward emb ids) :=
  ⟨fun r => multihead_forward_perm r p emb ids,
   fun u => unweighted_forward_perm u p emb ids,
   fun c => combined_forward_perm c p emb ids⟩

/-- If both weighted sub-poolers return, `CombinedGraphReadout.forward`
returns the concatenate-relu-project combination of the three results. -/
theorem CombinedGraphReadout.forward_ok_parts
    {node_dim out_dim num_heads head_dim : ℕ}
    (c : CombinedGraphReadout node_dim out_dim num_heads head_dim)
    {V G : ℕ} (emb : Fin V → Fin node_dim → ℝ) (ids : Fin V → Fin G)
    (M S : Fin G → Fin out_dim → ℝ)
    (hM : c.weighted_mean_pooler.forward emb ids = Except.ok M)
    (hS : c.weighted_sum_pooler.forward emb ids = Except.ok S) :
    c.forward emb ids = Except.ok (fun g o =>
      ∑ k, c.combination_layer o k *
        relu (cat3 M S (c.max_pooler.forward emb ids) g k)) := by
  unfold CombinedGraphReadout.forward
  rw [hM, hS]
  rfl

/-- C9: for every readout variant and valid input, `forward` produces a matrix
of shape `[num_graphs, out_dim]` (a total function `Fin G → Fin out_dim → ℝ`),
for every `V` and `G`, including `V = 0` and graphs with no nodes. -/
theorem C9_output_shape
    (node_dim out_dim num_heads head_dim num_mlp_layers V G : ℕ)
    (emb : Fin V → Fin node_dim → ℝ) (ids : Fin V → Fin G) :
    (∀ r : MultiHeadWeightedGraphReadout node_dim out_dim num_heads head_dim num_mlp_layers,
      r.weighting_type = "weighted_sum" ∨ r.weighting_type = "weighted_mean" →
      ∃ M : Fin G → Fin out_dim → ℝ, r.forward emb ids = Except.ok M) ∧
    (∀ u : UnweightedGraphReadout node_dim out_dim,
      ∃ M : Fin G → Fin out_dim → ℝ, u.forward emb ids = M) ∧
    (∀ c : CombinedGraphReadout node_dim out_dim num_heads head_dim,
      c.weighted_mean_pooler.weighting_type = "weighted_mean" →
      c.weighted_sum_pooler.weighting_type = "weighted_sum" →
      ∃ M : Fin G → Fin out_dim → ℝ, c.forward emb ids = Except.ok M) := by
  refine ⟨fun r hr => ?_, fun u => ⟨_, rfl⟩, fun c hm hs => ?_⟩
  · obtain ⟨w, hw⟩ := r.weights_ok_of_valid emb ids hr
    exact ⟨_, r.forward_eq_segmented_sum emb ids w hw⟩
  · obtain ⟨wm, hwm⟩ := c.weighted_mean_pooler.weights_ok_of_valid emb ids (Or.inr hm)
    obtain ⟨ws, hws⟩ := c.weighted_sum_pooler.weights_ok_of_valid emb ids (Or.inl hs)
    have hM := c.weighted_mean_pooler.forward_eq_segmented_sum emb ids wm hwm
    have hS := c.weighted_sum_pooler.forward_eq_segmented_sum emb ids ws hws
    exact ⟨_, c.forward_ok_parts emb ids _ _ hM hS⟩

/-- An empty batch: zero nodes, one graph. -/
noncomputable def embZ0 : Fin 0 → Fin 1 → ℝ := fun _ _ => 0

/-- Graph assignment for the empty batch. -/
def idsZ0 : Fin 0 → Fin 1 := fun i => i.elim0

/-- A concrete `sum` unweighted readout with a zero combination layer. -/
noncomputable def uSum : UnweightedGraphReadout 1 1 := ⟨"sum", fun _ _ => 0⟩

/-- A concrete `mean` unweighted readout with a zero combination layer. -/
noncomputable def uMean : UnweightedGraphReadout 1 1 := ⟨"mean", fun _ _ => 0⟩

/-- Witness for C9: all three variants produce a `[1, 1]` output on the empty
batch (`V = 0`, one node-less graph). -/
theorem C9_output_shape_witness :
    (∃ M : Fin 1 → Fin 1 → ℝ, rWS.forward embZ0 idsZ0 = Except.ok M) ∧
    (∃ M : Fin 1 → Fin 1 → ℝ, uSum.forward embZ0 idsZ0 = M) ∧
    (∃ M : Fin 1 → Fin 1 → ℝ, cCombined.forward embZ0 idsZ0 = Except.ok M) :=
  have hc := C9_output_shape 1 1 1 1 0 0 1 embZ0 idsZ0
  have hc1 := C9_output_shape 1 1 1 1 1 0 1 embZ0 idsZ0
  ⟨hc.1 rWS (Or.inl rfl), hc.2.1 uSum, hc1.2.2 cCombined rfl rfl⟩

/-- C10: a graph index with no assigned nodes yields the all-zero output row,
for `MultiHeadWeightedGraphReadout` (both weighting types, i.e. whenever the
weight normalisation succeeds) and for `UnweightedGraphReadout` with `sum` or
`mean` pooling: the zero-initialized accumulator row receives no
contributions, and the bias-free projection maps zero to zero. -/
theorem C10_empty_graph_zero_row
    {node_dim out_dim num_heads head_dim num_mlp_layers V G : ℕ}
    (emb : Fin V → Fin node_dim → ℝ) (ids : Fin V → Fin G)
    (g : Fin G) (hg : ∀ i, ids i ≠ g) :
    (∀ (r : MultiHeadWeightedGraphReadout node_dim out_dim num_heads head_dim num_mlp_layers)
      (w : Fin V → Fin num_heads → ℝ) (M : Fin G → Fin out_dim → ℝ),
      r.weights emb ids = Except.ok w → r.forward emb ids = Except.ok M →
      ∀ o, M g o = 0) ∧
    (∀ u : UnweightedGraphReadout node_dim out_dim,
      u.pooling_type = "sum" ∨ u.pooling_type = "mean" →
      ∀ o, u.forward emb ids g o = 0) := by
  have hempty : graphNodes ids g = ∅ :=
    Finset.eq_empty_iff_forall_not_mem.mpr
      (fun i hi => hg i ((mem_graphNodes ids g i).1 hi))
  constructor
  · intro r w M hw hM o
    have hF := r.forward_eq_segmented_sum emb ids w hw
    rw [hM] at hF
    injection hF with hF
    rw [hF]
    simp [hempty]
  · intro u hu o
    rcases hu with hu | hu
    · show ∑ d, u.combination_layer o d *
        scatter_reduce u.pooling_type emb ids g d = 0
      rw [hu]
      simp [scatter_reduce_sum, hempty]
    · show ∑ d, u.combination_layer o d *
        scatter_reduce u.pooling_type emb ids g d = 0
      rw [hu]
      simp [scatter_reduce_mean, hempty]

/-- One node, all features zero. -/
noncomputable def emb1 : Fin 1 → Fin 1 → ℝ := fun _ _ => 0

/-- One node assigned to graph `0` of two graphs; graph `1` is empty. -/
def ids12 : Fin 1 → Fin 2 := fun _ => 0

/-- Witness for C10: with one node in graph 0 and graph 1 empty, row 1 of the
weighted-sum multi-head readout's output and of the `sum`/`mean` unweighted
readouts' outputs is zero. -/
theorem C10_empty_graph_zero_row_witness :
    (∀ i : Fin 1, ids12 i ≠ 1) ∧
    (∃ M, rWS.forward emb1 ids12 = Except.ok M ∧ ∀ o, M 1 o = 0) ∧
    (∀ o, uSum.forward emb1 ids12 1 o = 0) ∧
    (∀ o, uMean.forward emb1 ids12 1 o = 0) :=
  have hg : ∀ i : Fin 1, ids12 i ≠ 1 := by decide
  have hw : rWS.weights emb1 ids12 =
      Except.ok (fun i h => sigmoid (rWS.scores emb1 i h)) :=
    rWS.weights_weighted_sum emb1 ids12 rfl
  have hM := rWS.forward_eq_segmented_sum emb1 ids12 _ hw
  ⟨hg,
   ⟨_, hM, (C10_empty_graph_zero_row emb1 ids12 1 hg).1 rWS _ _ hw hM⟩,
   (@C10_empty_graph_zero_row 1 1 1 1 0 1 2 emb1 ids12 1 hg).2 uSum (Or.inl rfl),
   (@C10_empty_graph_zero_row 1 1 1 1 0 1 2 emb1 ids12 1 hg).2 uMean (Or.inr rfl)⟩
